import Mathlib

/-!
Verification of the TaxAgent core: a shallow embedding of the progressive
tax calculation engine (`backend/app/services/tax_calculator.py`), the
document classification and extraction pipeline
(`backend/app/services/document_processor.py`), and the batch income
aggregation performed by the calculate route
(`backend/app/routes/calculate.py`).

Python floats are modelled as exact rationals (ℚ); the unbounded upper
bracket (maximum income float infinity) is modelled as `Option ℚ` with
`none` standing for infinity.  Python dictionaries holding extracted
fields are modelled as insertion-ordered association lists.  Fallible
Python code (code that can raise) returns `Option`.
-/

namespace TaxAgent

/-! ## Python string primitives used by both components, modelled over
the character list of a `String` -/

/-- Python whitespace for `str.split()` / `\s`. -/
def pyIsSpace (c : Char) : Bool :=
  c == ' ' || c == '\t' || c == '\n' || c == '\r' || c == '\x0b' || c == '\x0c'

/-- Python `str.upper()` for the ASCII text of this pipeline. -/
def pyUpper (s : String) : String :=
  String.mk (s.data.map Char.toUpper)

/-- Python `str.lower()` for the ASCII text of this pipeline. -/
def pyLower (s : String) : String :=
  String.mk (s.data.map Char.toLower)

/-- Python `str.strip()`: drop leading and trailing whitespace. -/
def pyStrip (s : String) : String :=
  String.mk (((s.data.dropWhile pyIsSpace).reverse.dropWhile pyIsSpace).reverse)

/-! ## Tax calculator data model (`tax_calculator.py`) -/

/-- The `FilingStatus` enum of `tax_calculator.py` (values "single",
"married", "head_of_household"). -/
inductive FilingStatus where
  | SINGLE
  | MARRIED
  | HEAD_OF_HOUSEHOLD
deriving DecidableEq

/-- The `TaxBracket` dataclass.  `max_income = none` models the float infinity. -/
structure TaxBracket where
  rate : ℚ
  min_income : ℚ
  max_income : Option ℚ
deriving DecidableEq

/-- 2024 tax brackets (Single), from `TaxCalculator.__init__`. -/
def single_brackets : List TaxBracket :=
  [ ⟨10/100, 0, some 11600⟩,
    ⟨12/100, 11600, some 47150⟩,
    ⟨22/100, 47150, some 100525⟩,
    ⟨24/100, 100525, some 191950⟩,
    ⟨32/100, 191950, some 243725⟩,
    ⟨35/100, 243725, some 609350⟩,
    ⟨37/100, 609350, none⟩ ]

/-- 2024 tax brackets (Married Filing Jointly), from `TaxCalculator.__init__`. -/
def married_brackets : List TaxBracket :=
  [ ⟨10/100, 0, some 23200⟩,
    ⟨12/100, 23200, some 94300⟩,
    ⟨22/100, 94300, some 201050⟩,
    ⟨24/100, 201050, some 383900⟩,
    ⟨32/100, 383900, some 487450⟩,
    ⟨35/100, 487450, some 731200⟩,
    ⟨37/100, 731200, none⟩ ]

/-- 2024 tax brackets (Head of Household), from `TaxCalculator.__init__`. -/
def hoh_brackets : List TaxBracket :=
  [ ⟨10/100, 0, some 16550⟩,
    ⟨12/100, 16550, some 63100⟩,
    ⟨22/100, 63100, some 100500⟩,
    ⟨24/100, 100500, some 191950⟩,
    ⟨32/100, 191950, some 243700⟩,
    ⟨35/100, 243700, some 609350⟩,
    ⟨37/100, 609350, none⟩ ]

/-- 2024 standard deductions table, from `TaxCalculator.__init__`. -/
def standard_deductions : FilingStatus → ℚ
  | .SINGLE => 14600
  | .MARRIED => 29200
  | .HEAD_OF_HOUSEHOLD => 21900

/-- Embeds `TaxCalculator.get_brackets_for_status`. -/
def get_brackets_for_status : FilingStatus → List TaxBracket
  | .SINGLE => single_brackets
  | .MARRIED => married_brackets
  | .HEAD_OF_HOUSEHOLD => hoh_brackets

/-- Embeds `TaxCalculator.calculate_tax_for_bracket`.  For the unbounded top
bracket, `min(income - min_income, inf - min_income) = income - min_income`. -/
def calculate_tax_for_bracket (income : ℚ) (b : TaxBracket) : ℚ :=
  if income ≤ b.min_income then 0
  else
    match b.max_income with
    | none => (income - b.min_income) * b.rate
    | some mx => min (income - b.min_income) (mx - b.min_income) * b.rate

/-- Embeds `TaxCalculator.calculate_marginal_tax`: fold over the brackets,
adding the per-bracket tax whenever `taxable_income > bracket.min_income`. -/
def calculate_marginal_tax (taxable_income : ℚ) (filing_status : FilingStatus) : ℚ :=
  (get_brackets_for_status filing_status).foldl
    (fun total_tax b =>
      if b.min_income < taxable_income then
        total_tax + calculate_tax_for_bracket taxable_income b
      else total_tax)
    0

/-- Embeds `TaxCalculator.calculate_standard_deduction` (age is a Python int,
possibly negative). -/
def calculate_standard_deduction (filing_status : FilingStatus) (age : Int) : ℚ :=
  let base_deduction := standard_deductions filing_status
  if 65 ≤ age then
    match filing_status with
    | .SINGLE => base_deduction + 1850
    | .MARRIED => base_deduction + 1500
    | .HEAD_OF_HOUSEHOLD => base_deduction + 1850
  else base_deduction

/-- One entry of the list built by `TaxCalculator.get_bracket_breakdown`.
The source also renders `rate` and the income range as display strings
(the bracket and income_range entries); here the underlying numbers are kept. -/
structure BracketEntry where
  rate : ℚ
  min_income : ℚ
  max_income : Option ℚ
  taxable_in_bracket : ℚ
  tax_for_bracket : ℚ
deriving DecidableEq

/-- The `taxable_in_bracket` value computed inside
`TaxCalculator.get_bracket_breakdown` (matching
`min(taxable_income - min_income, max_income - min_income)`). -/
def taxable_in_bracket (taxable_income : ℚ) (b : TaxBracket) : ℚ :=
  match b.max_income with
  | none => taxable_income - b.min_income
  | some mx => min (taxable_income - b.min_income) (mx - b.min_income)

/-- The breakdown entry appended for bracket `b` in
`TaxCalculator.get_bracket_breakdown`. -/
def mkBracketEntry (taxable_income : ℚ) (b : TaxBracket) : BracketEntry :=
  ⟨b.rate, b.min_income, b.max_income,
    taxable_in_bracket taxable_income b,
    calculate_tax_for_bracket taxable_income b⟩

/-- Embeds `TaxCalculator.get_bracket_breakdown`: appends an entry for every
bracket with `taxable_income > bracket.min_income`. -/
def get_bracket_breakdown (taxable_income : ℚ) (filing_status : FilingStatus) :
    List BracketEntry :=
  (get_brackets_for_status filing_status).foldl
    (fun breakdown b =>
      if b.min_income < taxable_income then
        breakdown ++ [mkBracketEntry taxable_income b]
      else breakdown)
    []

/-- The nested `breakdown` dictionary built by `TaxCalculator.calculate_tax`. -/
structure TaxBreakdown where
  wages : ℚ
  interest_income : ℚ
  nonemployee_compensation : ℚ
  total_income : ℚ
  standard_deduction : ℚ
  agi : ℚ
  taxable_income : ℚ
  tax_liability : ℚ
  total_payments : ℚ
  refund_or_amount_owed : ℚ
  bracket_breakdown : List BracketEntry
deriving DecidableEq

/-- The `TaxCalculationResult` dataclass. -/
structure TaxCalculationResult where
  filing_status : FilingStatus
  total_income : ℚ
  adjusted_gross_income : ℚ
  standard_deduction : ℚ
  taxable_income : ℚ
  tax_liability : ℚ
  total_payments : ℚ
  refund_or_amount_owed : ℚ
  breakdown : TaxBreakdown
deriving DecidableEq

/-- Embeds `FilingStatus(filing_status.lower())`: Python enum lookup by value;
raises (here: `none`) when the lowercased string is not one of the three
enum values. -/
def filingStatusFromString (s : String) : Option FilingStatus :=
  if pyLower s = "single" then some .SINGLE
  else if pyLower s = "married" then some .MARRIED
  else if pyLower s = "head_of_household" then some .HEAD_OF_HOUSEHOLD
  else none

/-- Embeds `TaxCalculator.calculate_tax`.  The only failure point is the
filing-status string conversion; everything after it is total. -/
def calculate_tax (filing_status : String) (wages : ℚ := 0)
    (interest_income : ℚ := 0) (nonemployee_compensation : ℚ := 0)
    (federal_income_tax_withheld : ℚ := 0) (dependents : Int := 0)
    (age : Int := 0) : Option TaxCalculationResult := do
  let _ := dependents
  let status_enum ← filingStatusFromString filing_status
  let total_income := wages + interest_income + nonemployee_compensation
  let agi := total_income
  let standard_deduction := calculate_standard_deduction status_enum age
  let taxable_income := max 0 (agi - standard_deduction)
  let tax_liability := calculate_marginal_tax taxable_income status_enum
  let total_payments := federal_income_tax_withheld
  let refund_or_amount_owed := total_payments - tax_liability
  some
    { filing_status := status_enum
      total_income := total_income
      adjusted_gross_income := agi
      standard_deduction := standard_deduction
      taxable_income := taxable_income
      tax_liability := tax_liability
      total_payments := total_payments
      refund_or_amount_owed := refund_or_amount_owed
      breakdown :=
        { wages := wages
          interest_income := interest_income
          nonemployee_compensation := nonemployee_compensation
          total_income := total_income
          standard_deduction := standard_deduction
          agi := agi
          taxable_income := taxable_income
          tax_liability := tax_liability
          total_payments := total_payments
          refund_or_amount_owed := refund_or_amount_owed
          bracket_breakdown := get_bracket_breakdown taxable_income status_enum } }

/-- A Python value stored in a kwargs / extracted-data dictionary:
either a number or a string. -/
inductive PyValue where
  | num (q : ℚ)
  | str (s : String)
deriving DecidableEq

/-- Result dictionary of `TaxCalculator.validate_inputs`. -/
structure InputValidation where
  is_valid : Bool
  errors : List String
  warnings : List String
deriving DecidableEq

/-- Lookup in an association list modelling a Python dict. -/
def getVal (d : List (String × PyValue)) (k : String) : Option PyValue :=
  (d.find? (fun p => p.1 == k)).map (fun p => p.2)

/-- One step of the negative-value loop of `validate_inputs`. -/
def negStep (acc : List String) (p : String × PyValue) : List String :=
  match p.2 with
  | .num q => if q < 0 then acc ++ [p.1 ++ " cannot be negative"] else acc
  | .str _ => acc

/-- The negative-value loop of `validate_inputs`: for every numeric
keyword argument below zero, append `"<key> cannot be negative"`. -/
def negativeValueErrors (kwargs : List (String × PyValue)) : List String :=
  kwargs.foldl negStep []

/-- The filing-status check of `validate_inputs`:
checking that the filing_status value is in valid_statuses (a numeric value is also
not in the list of valid status strings). -/
def filingStatusErrors (kwargs : List (String × PyValue)) : List String :=
  match getVal kwargs "filing_status" with
  | some (.str s) =>
      if (["single", "married", "head_of_household"] : List String).contains s then []
      else ["Invalid filing status"]
  | some (.num _) => ["Invalid filing status"]
  | none => []

/-- The dependents check of `validate_inputs`:
comparing the dependents value with 0.  Comparing a string with an int raises a
`TypeError` in Python, modelled as `none`. -/
def dependentsErrors (kwargs : List (String × PyValue)) : Option (List String) :=
  match getVal kwargs "dependents" with
  | some (.num q) => if q < 0 then some ["Number of dependents cannot be negative"] else some []
  | some (.str _) => none
  | none => some []

/-- The age check of `validate_inputs`:
an age value below 0 or above 120 appends a warning. -/
def ageWarnings (kwargs : List (String × PyValue)) : Option (List String) :=
  match getVal kwargs "age" with
  | some (.num q) => if q < 0 ∨ 120 < q then some ["Age seems unusual, please verify"] else some []
  | some (.str _) => none
  | none => some []

/-- Embeds `TaxCalculator.validate_inputs`, with `kwargs` as an ordered list of
keyword arguments.  A raised `TypeError` in the dependents or age check
propagates (`none`). -/
def validate_inputs (kwargs : List (String × PyValue)) : Option InputValidation :=
  (dependentsErrors kwargs).bind fun depErrors =>
    (ageWarnings kwargs).bind fun warnings =>
      let errors := negativeValueErrors kwargs ++ filingStatusErrors kwargs ++ depErrors
      some ⟨errors.isEmpty, errors, warnings⟩

/-! ## Document processor data model (`document_processor.py`) -/

/-- The `DocumentType` enum (values "W-2", "1099-INT", "1099-NEC", "UNKNOWN"). -/
inductive DocumentType where
  | W2
  | INT_1099
  | NEC_1099
  | UNKNOWN
deriving DecidableEq

/-- The `ExtractedData` dataclass.  The `data` dict is an insertion-ordered
association list. -/
structure ExtractedData where
  document_type : DocumentType
  confidence_score : ℚ
  data : List (String × PyValue)
  raw_text : String
  filename : String
deriving DecidableEq

/-- Does `cs` start with the characters of `lit`. -/
def startsWithL : List Char → List Char → Bool
  | [], _ => true
  | _ :: _, [] => false
  | a :: as, b :: bs => a == b && startsWithL as bs

/-- Does `pat` occur as a contiguous run inside `cs`. -/
def containsAux (pat : List Char) : List Char → Bool
  | [] => startsWithL pat []
  | c :: cs => startsWithL pat (c :: cs) || containsAux pat cs

/-- Python substring containment `pat in s`. -/
def containsSub (s pat : String) : Bool :=
  containsAux pat.data s.data

/-- Whitespace tokenizer: Python `str.split()` with no argument splits
on whitespace runs and drops empty pieces.  `acc` is the current token,
accumulated in reverse. -/
def pySplitAux : List Char → List Char → List String
  | [], [] => []
  | [], acc => [String.mk acc.reverse]
  | c :: cs, acc =>
      if pyIsSpace c then
        if acc.isEmpty then pySplitAux cs []
        else String.mk acc.reverse :: pySplitAux cs []
      else pySplitAux cs (c :: acc)

/-- Python `str.split()` with no argument. -/
def pySplit (s : String) : List String :=
  pySplitAux s.data []

/-- Split on a separator character, keeping empty pieces:
Python `str.split(sep)`. -/
def splitCharAux (sep : Char) : List Char → List Char → List (List Char)
  | [], acc => [acc.reverse]
  | c :: cs, acc =>
      if c == sep then acc.reverse :: splitCharAux sep cs []
      else splitCharAux sep cs (c :: acc)

/-- Python text.split on the newline character. -/
def splitLines (text : String) : List String :=
  (splitCharAux '\n' text.data []).map String.mk

/-- Python part.replace removing every comma. -/
def stripCommas (s : String) : String :=
  String.mk (s.data.filter (fun c => c ≠ ','))

/-- Numeric value of a digit string. -/
def natOfDigits (cs : List Char) : Nat :=
  cs.foldl (fun n c => n * 10 + (c.toNat - 48)) 0

/-- Python `str.isdigit()` for ASCII text: nonempty and all digits. -/
def pyIsDigitStr (s : String) : Bool :=
  !s.data.isEmpty && s.data.all Char.isDigit

/-- Python `int(s)` on a string that passed `isdigit`. -/
def pyInt (s : String) : Nat := natOfDigits s.data

/-- Python `float(s)` restricted to the decimal forms
`[+|-] digits [. digits]` that occur in this pipeline; other accepted
Python forms (exponents, `inf`, `nan`) do not arise here.  `none`
models a raised `ValueError`. -/
def pyFloat (s : String) : Option ℚ :=
  let core : List Char → Option ℚ := fun cs =>
    let intPart := cs.takeWhile Char.isDigit
    let rest := cs.drop intPart.length
    match rest with
    | [] => if intPart.isEmpty then none else some (natOfDigits intPart : ℚ)
    | '.' :: frac =>
        if frac.all Char.isDigit && !(intPart.isEmpty && frac.isEmpty) then
          some ((natOfDigits intPart : ℚ) + (natOfDigits frac : ℚ) / (10 : ℚ) ^ frac.length)
        else none
    | _ => none
  match s.data with
  | '-' :: cs => (core cs).map Neg.neg
  | '+' :: cs => core cs
  | cs => core cs

/-- Does the dict have key `k` (`k in data` / `field_name not in data`). -/
def hasKey (d : List (String × PyValue)) (k : String) : Bool :=
  d.any (fun p => p.1 == k)

/-- Assignment `data[k] = v` on a Python dict: overwrite in place when the key is
present, otherwise append, preserving insertion order. -/
def setKey (d : List (String × PyValue)) (k : String) (v : PyValue) :
    List (String × PyValue) :=
  if hasKey d k then d.map (fun p => if p.1 == k then (k, v) else p)
  else d ++ [(k, v)]

/-! ### Bespoke matchers for the regex patterns whose matches the parse
functions actually consume.  Python `re.findall` scans start positions
left to right; `matches[0]` is the leftmost match, so each matcher
returns the leftmost match of its pattern. -/

/-- Consume exactly `n` digit characters; return them and the rest. -/
def takeDigits : Nat → List Char → Option (List Char × List Char)
  | 0, cs => some ([], cs)
  | _ + 1, [] => none
  | n + 1, c :: cs =>
      if c.isDigit then (takeDigits n cs).map (fun p => (c :: p.1, p.2))
      else none

/-- Try the matcher at every start position, leftmost first. -/
def scanFirst (f : List Char → Option (List Char)) : List Char → Option (List Char)
  | [] => f []
  | c :: cs =>
      match f (c :: cs) with
      | some r => some r
      | none => scanFirst f cs

/-- Match `\d{2}-\d{7}` at the start of `cs` (patterns `employer_ein`,
`payer_tin`). -/
def einAt (cs : List Char) : Option (List Char) := do
  let (d1, r1) ← takeDigits 2 cs
  match r1 with
  | '-' :: r2 => (takeDigits 7 r2).map (fun p => d1 ++ '-' :: p.1)
  | _ => none

/-- Match `\d{3}-\d{2}-\d{4}` at the start of `cs` (patterns
`employee_ssn`, `recipient_ssn`). -/
def ssnAt (cs : List Char) : Option (List Char) := do
  let (d1, r1) ← takeDigits 3 cs
  match r1 with
  | '-' :: r2 => do
      let (d2, r3) ← takeDigits 2 r2
      match r3 with
      | '-' :: r4 => (takeDigits 4 r4).map (fun p => d1 ++ '-' :: d2 ++ '-' :: p.1)
      | _ => none
  | _ => none

/-- Leftmost match of `\d{2}-\d{7}` in the full text. -/
def einFind (text : String) : Option String :=
  (scanFirst einAt text.data).map String.mk

/-- Leftmost match of `\d{3}-\d{2}-\d{4}` in the full text. -/
def ssnFind (text : String) : Option String :=
  (scanFirst ssnAt text.data).map String.mk

/-- Character class `[A-Z\s&]` of the employer/payer name patterns. -/
def upperNameClass (c : Char) : Bool :=
  ('A' ≤ c && c ≤ 'Z') || pyIsSpace c || c == '&'

/-- Character class `[A-Za-z\s]` of the employee/recipient name pattern. -/
def anyNameClass (c : Char) : Bool :=
  c.isAlpha || pyIsSpace c

/-- First alternative of the non-capturing suffix group
(e.g. `(?:CORP|INC|LLC|LTD|COMPANY|CO)`) matching at `cs`, in the order
the alternation lists them. -/
def suffixAltAt (lits : List String) (cs : List Char) : Option (List Char) :=
  lits.findSome? (fun lit => if startsWithL lit.data cs then some lit.data else none)

/-- Backtracking for `cls+` followed by the suffix alternation: try the
greedy run length first, then shorter class runs, never fewer than one
class character (Python regex greedy `+` with backtracking). -/
def tryLens (lits : List String) (cs : List Char) : Nat → Option (List Char)
  | 0 => none
  | j + 1 =>
      match suffixAltAt lits (cs.drop (j + 1)) with
      | some litChars => some (cs.take (j + 1) ++ litChars)
      | none => tryLens lits cs j

/-- Match `cls+(?:alt₁|alt₂|...)` at the start of `cs`. -/
def nameSuffixAt (cls : Char → Bool) (lits : List String) (cs : List Char) :
    Option (List Char) :=
  tryLens lits cs (cs.takeWhile cls).length

/-- Leftmost match of `cls+(?:...)` in the full text (patterns
`employer_name`, `payer_name`). -/
def nameSuffixFind (cls : Char → Bool) (lits : List String) (text : String) :
    Option String :=
  (scanFirst (fun cs => nameSuffixAt cls lits cs) text.data).map String.mk

/-- Match `cls+` at the start of `cs`: the greedy maximal run. -/
def plainRunAt (cls : Char → Bool) (cs : List Char) : Option (List Char) :=
  let r := cs.takeWhile cls
  if r.isEmpty then none else some r

/-- Leftmost match of `([A-Za-z\s]+)` in the full text (patterns
`employee_name`, `recipient_name`). -/
def plainNameFind (text : String) : Option String :=
  (scanFirst (plainRunAt anyNameClass) text.data).map String.mk

/-- Suffix alternation of the W-2 / 1099-NEC name patterns. -/
def corpSuffixes : List String := ["CORP", "INC", "LLC", "LTD", "COMPANY", "CO"]

/-- Suffix alternation of the 1099-INT payer name pattern. -/
def bankSuffixes : List String := ["BANK", "CORP", "INC", "LLC", "LTD", "COMPANY", "CO"]

/-! ### Field parsing (`parse_w2_data`, `parse_1099_int_data`,
`parse_1099_nec_data`).  Each runs a structural line-matching phase and
then a regex fallback over the pattern dictionary in insertion order.
In the fallback loop only the id-shaped fields (added via `matches[0]`)
and the name-shaped fields (added after `strip()` and a length check)
have handling branches; for every other field name the loop computes
`re.findall` and then does nothing, so those iterations leave the state
unchanged. -/

/-- Fallback step for an id-shaped field (`employer_ein`, `employee_ssn`,
`payer_tin`, `recipient_ssn`): `data[field] = matches[0]`. -/
def fallbackId (st : List (String × PyValue) × Nat) (k : String)
    (m : Option String) : List (String × PyValue) × Nat :=
  if hasKey st.1 k then st
  else
    match m with
    | some s => (setKey st.1 k (.str s), st.2 + 1)
    | none => st

/-- Fallback step for a name-shaped field: `name = matches[0].strip()`,
kept only when nonempty and longer than 2 characters. -/
def fallbackName (st : List (String × PyValue) × Nat) (k : String)
    (m : Option String) : List (String × PyValue) × Nat :=
  if hasKey st.1 k then st
  else
    match m with
    | some s =>
        let name := pyStrip s
        if name ≠ "" && 2 < name.length then (setKey st.1 k (.str name), st.2 + 1)
        else st
    | none => st

/-- Structural phase of `parse_w2_data` for one line (the
`if/elif` chain over known sample-layout lines).  `float(...)` can raise,
hence `Option`. -/
def w2StructLine (st : List (String × PyValue) × Nat) (line : String) :
    Option (List (String × PyValue) × Nat) :=
  let data := st.1
  let total := st.2
  if containsSub line "11-1111111" && containsSub line "50,000" && containsSub line "8,000" then
    match pySplit line with
    | _ :: p1 :: p2 :: _ => do
        let w ← pyFloat (stripCommas p1)
        let f ← pyFloat (stripCommas p2)
        some (setKey (setKey data "wages" (.num w)) "federal_tax_withheld" (.num f), total + 2)
    | _ => some st
  else if containsSub line "50,000" && containsSub line "3,100" then
    match pySplit line with
    | p0 :: p1 :: _ => do
        let a ← pyFloat (stripCommas p0)
        let b ← pyFloat (stripCommas p1)
        some (setKey (setKey data "social_security_wages" (.num a)) "social_security_tax" (.num b), total + 2)
    | _ => some st
  else if containsSub line "50,000" && containsSub line "725" then
    match pySplit line with
    | p0 :: p1 :: _ => do
        let a ← pyFloat (stripCommas p0)
        let b ← pyFloat (stripCommas p1)
        some (setKey (setKey data "medicare_wages" (.num a)) "medicare_tax" (.num b), total + 2)
    | _ => some st
  else if containsSub line "50,000" && containsSub line "2,000" && containsSub line "CA" then
    match pySplit line with
    | p0 :: p1 :: p2 :: _ => do
        let a ← pyFloat (stripCommas p0)
        let b ← pyFloat (stripCommas p1)
        some (setKey (setKey (setKey data "state_wages" (.num a)) "state_tax" (.num b)) "state" (.str p2), total + 3)
    | _ => some st
  else some st

/-- Number of entries of `self.w2_patterns` (`expected_fields` in
`parse_w2_data`): employer_ein, employer_name, employee_name,
employee_ssn, wages, federal_tax_withheld, social_security_wages,
social_security_tax, medicare_wages, medicare_tax, state, state_wages,
state_tax. -/
def w2ExpectedFields : Nat := 13

/-- The state of `parse_w2_data` before the final confidence division: the structural
line phase followed by the regex fallback in pattern-dict order. -/
def parse_w2_raw (text : String) : Option (List (String × PyValue) × Nat) := do
  let st ← (splitLines text).foldlM w2StructLine (([], 0) : List (String × PyValue) × Nat)
  let st := fallbackId st "employer_ein" (einFind text)
  let st := fallbackName st "employer_name" (nameSuffixFind upperNameClass corpSuffixes text)
  let st := fallbackName st "employee_name" (plainNameFind text)
  let st := fallbackId st "employee_ssn" (ssnFind text)
  some st

/-- Embeds `DocumentProcessor.parse_w2_data`: returns the data dict and
`confidence = total_matches / expected_fields`. -/
def parse_w2_data (text : String) : Option (List (String × PyValue) × ℚ) :=
  (parse_w2_raw text).map (fun st => (st.1, (st.2 : ℚ) / (w2ExpectedFields : ℚ)))

/-- Structural phase of `parse_1099_int_data` for one line: on the known
sample line, the first whitespace token that is all digits and equals 300
becomes `interest_income`. -/
def intStructLine (st : List (String × PyValue) × Nat) (line : String) :
    List (String × PyValue) × Nat :=
  if containsSub line "789 Bank St" && containsSub line "300" then
    match (pySplit line).find? (fun p => pyIsDigitStr (stripCommas p) && pyInt (stripCommas p) == 300) with
    | some p => (setKey st.1 "interest_income" (.num (pyInt (stripCommas p) : ℚ)), st.2 + 1)
    | none => st
  else st

/-- Number of entries of `self.int_1099_patterns` (`expected_fields`):
payer_name, payer_tin, recipient_ssn, recipient_name, account_number,
interest_income, federal_tax_withheld. -/
def int1099ExpectedFields : Nat := 7

/-- Embeds `DocumentProcessor.parse_1099_int_data` (no failure point: the
structural phase guards its `int`/`float` conversions with `isdigit`). -/
def parse_1099_int_data (text : String) : List (String × PyValue) × ℚ :=
  let st := (splitLines text).foldl intStructLine (([], 0) : List (String × PyValue) × Nat)
  let st := fallbackName st "payer_name" (nameSuffixFind upperNameClass bankSuffixes text)
  let st := fallbackId st "payer_tin" (einFind text)
  let st := fallbackId st "recipient_ssn" (ssnFind text)
  let st := fallbackName st "recipient_name" (plainNameFind text)
  (st.1, (st.2 : ℚ) / (int1099ExpectedFields : ℚ))

/-- Structural phase of `parse_1099_nec_data` for one line. -/
def necStructLine (st : List (String × PyValue) × Nat) (line : String) :
    List (String × PyValue) × Nat :=
  if containsSub line "33-3333333" && containsSub line "10,000" then
    match (pySplit line).find? (fun p => pyIsDigitStr (stripCommas p) && pyInt (stripCommas p) == 10000) with
    | some p => (setKey st.1 "nonemployee_compensation" (.num (pyInt (stripCommas p) : ℚ)), st.2 + 1)
    | none => st
  else st

/-- Number of entries of `self.nec_1099_patterns` (`expected_fields`). -/
def nec1099ExpectedFields : Nat := 7

/-- Embeds `DocumentProcessor.parse_1099_nec_data`. -/
def parse_1099_nec_data (text : String) : List (String × PyValue) × ℚ :=
  let st := (splitLines text).foldl necStructLine (([], 0) : List (String × PyValue) × Nat)
  let st := fallbackName st "payer_name" (nameSuffixFind upperNameClass corpSuffixes text)
  let st := fallbackId st "payer_tin" (einFind text)
  let st := fallbackId st "recipient_ssn" (ssnFind text)
  let st := fallbackName st "recipient_name" (plainNameFind text)
  (st.1, (st.2 : ℚ) / (nec1099ExpectedFields : ℚ))

/-! ### Document classification (`detect_document_type`). -/

/-- The indicator phrase PAYERS NAME with an apostrophe between R and S,
built from character code 39. -/
def payersName : String := "PAYER" ++ String.singleton (Char.ofNat 39) ++ "S NAME"

/-- W-2 indicator phrases. -/
def w2_indicators : List String :=
  ["FORM W-2", "WAGE AND TAX STATEMENT", "EMPLOYER IDENTIFICATION NUMBER"]

/-- 1099-INT indicator phrases. -/
def int_indicators : List String :=
  ["FORM 1099-INT", "INTEREST INCOME", payersName]

/-- 1099-NEC indicator phrases. -/
def nec_indicators : List String :=
  ["FORM 1099-NEC", "NONEMPLOYEE COMPENSATION", payersName]

/-- Indicator score: indicators present in the uppercased text divided
by indicators defined. -/
def indicatorScore (inds : List String) (text : String) : ℚ :=
  ((inds.countP (fun i => containsSub (pyUpper text) i)) : ℚ) / (inds.length : ℚ)

/-- Score `w2_score / len(w2_indicators)`. -/
def w2_score (text : String) : ℚ := indicatorScore w2_indicators text

/-- Score `int_score / len(int_indicators)`. -/
def int_score (text : String) : ℚ := indicatorScore int_indicators text

/-- Score `nec_score / len(nec_indicators)`. -/
def nec_score (text : String) : ℚ := indicatorScore nec_indicators text

/-- Embeds `max(scores, key=scores.get)` over the scores dict: Python `max`
iterates in insertion order (W2, then 1099-INT, then 1099-NEC) and keeps
the first key whose score is not exceeded by a later one. -/
def pickBest (a b c : ℚ) : DocumentType × ℚ :=
  if a < b then (if b < c then (.NEC_1099, c) else (.INT_1099, b))
  else (if a < c then (.NEC_1099, c) else (.W2, a))

/-- Embeds `DocumentProcessor.detect_document_type`. -/
def detect_document_type (text : String) : DocumentType × ℚ :=
  pickBest (w2_score text) (int_score text) (nec_score text)

/-- Embeds `DocumentProcessor.process_document` from the extracted text onward
(text extraction from PDF bytes is the outside collaborator).  A parse
exception propagates (`none`). -/
def process_document (text filename : String) : Option ExtractedData :=
  if text = "" then
    some ⟨.UNKNOWN, 0, [], "", filename⟩
  else
    let dt := (detect_document_type text).1
    let type_confidence := (detect_document_type text).2
    let parsed : Option (List (String × PyValue) × ℚ) :=
      match dt with
      | .W2 => parse_w2_data text
      | .INT_1099 => some (parse_1099_int_data text)
      | .NEC_1099 => some (parse_1099_nec_data text)
      | .UNKNOWN => some ([], 0)
    parsed.map (fun p => ⟨dt, (type_confidence + p.2) / 2, p.1, text, filename⟩)

/-! ### Validation (`validate_extracted_data`). -/

/-- Result dict of `DocumentProcessor.validate_extracted_data`. -/
structure ValidationResult where
  is_valid : Bool
  errors : List String
  warnings : List String
  suggestions : List String
deriving DecidableEq

/-- Embeds `DocumentProcessor.validate_extracted_data`. -/
def validate_extracted_data (e : ExtractedData) : ValidationResult :=
  let errors :=
    (if e.confidence_score < (1/2 : ℚ) then ["Low confidence in document parsing"] else [])
      ++ (if e.document_type = .UNKNOWN then ["Could not determine document type"] else [])
  let warnings :=
    if e.document_type = .W2 then
      (["wages", "federal_tax_withheld"].filter (fun f => !hasKey e.data f)).map
        (fun f => "Missing required field: " ++ f)
    else []
  let suggestions :=
    if (e.document_type = .INT_1099 ∨ e.document_type = .NEC_1099) ∧ ¬hasKey e.data "federal_tax_withheld" then
      ["No federal tax withheld found (this may be normal)"]
    else []
  { is_valid := !e.data.isEmpty && errors.isEmpty
    errors := errors
    warnings := warnings
    suggestions := suggestions }

/-! ### Batch income aggregation (route `calculate_tax` in
`routes/calculate.py`). -/

/-- The running `income_data` dict of the calculate route. -/
structure IncomeData where
  wages : ℚ
  interest_income : ℚ
  nonemployee_compensation : ℚ
  federal_income_tax_withheld : ℚ
deriving DecidableEq

/-- Embeds `extracted_data.data.get(key, 0)` followed by `+=`: the stored value
when numeric, else the default 0.  The parse functions only ever store
numbers under these keys (a string here would make Python raise). -/
def getAmount (d : List (String × PyValue)) (k : String) : ℚ :=
  match getVal d k with
  | some (.num q) => q
  | some (.str _) => 0
  | none => 0

/-- Per-document aggregation step of the route: route the populated
amount fields into `income_data` by document type. -/
def aggStep (inc : IncomeData) (e : ExtractedData) : IncomeData :=
  match e.document_type with
  | .W2 =>
      { inc with
        wages := inc.wages + getAmount e.data "wages"
        federal_income_tax_withheld :=
          inc.federal_income_tax_withheld + getAmount e.data "federal_tax_withheld" }
  | .INT_1099 =>
      { inc with
        interest_income := inc.interest_income + getAmount e.data "interest_income"
        federal_income_tax_withheld :=
          inc.federal_income_tax_withheld + getAmount e.data "federal_tax_withheld" }
  | .NEC_1099 =>
      { inc with
        nonemployee_compensation :=
          inc.nonemployee_compensation + getAmount e.data "nonemployee_compensation"
        federal_income_tax_withheld :=
          inc.federal_income_tax_withheld + getAmount e.data "federal_tax_withheld" }
  | .UNKNOWN => inc

/-- The batch aggregation loop of the route, starting from the all-zero
`income_data`. -/
def aggregate (docs : List ExtractedData) : IncomeData :=
  docs.foldl aggStep ⟨0, 0, 0, 0⟩

/-! ## Verification-side definitions -/

/-- A well-formed bracket: non-negative rate and minimum not above the
maximum.  Every bracket of the three 2024 tables satisfies it. -/
def bracketOKB (b : TaxBracket) : Bool :=
  decide (0 ≤ b.rate) &&
    match b.max_income with
    | none => true
    | some mx => decide (b.min_income ≤ mx)

/-- Bracket `a` lies entirely below bracket `b`: `a` has a finite
maximum that is at most the minimum of `b`. -/
def bracketBelowB (a b : TaxBracket) : Bool :=
  match a.max_income with
  | none => false
  | some mx => decide (mx ≤ b.min_income)

/-- The fixed per-status addon to the standard deduction for filers aged
65 or older. -/
def age65Addon : FilingStatus → ℚ
  | .SINGLE => 1850
  | .MARRIED => 1500
  | .HEAD_OF_HOUSEHOLD => 1850

/-- Contribution of one document to the aggregated wages. -/
def wagesContribution (e : ExtractedData) : ℚ :=
  match e.document_type with
  | .W2 => getAmount e.data "wages"
  | _ => 0

/-- Contribution of one document to the aggregated interest income. -/
def interestContribution (e : ExtractedData) : ℚ :=
  match e.document_type with
  | .INT_1099 => getAmount e.data "interest_income"
  | _ => 0

/-- Contribution of one document to the aggregated nonemployee
compensation. -/
def necContribution (e : ExtractedData) : ℚ :=
  match e.document_type with
  | .NEC_1099 => getAmount e.data "nonemployee_compensation"
  | _ => 0

/-- Contribution of one document to the aggregated federal withholding. -/
def withheldContribution (e : ExtractedData) : ℚ :=
  match e.document_type with
  | .UNKNOWN => 0
  | _ => getAmount e.data "federal_tax_withheld"

/-- Input text whose structural W-2 line pattern occurs on six lines:
the classifier sees all three W-2 indicators (score 1) and the W-2
parser counts 2 matches per structural line plus 2 fallback matches,
14 in total against 13 expected fields. -/
def c4Text : String :=
  "form w-2\nwage and tax statement\nemployer identification number\n" ++
  "11-1111111 50,000 8,000\n11-1111111 50,000 8,000\n11-1111111 50,000 8,000\n" ++
  "11-1111111 50,000 8,000\n11-1111111 50,000 8,000\n11-1111111 50,000 8,000"

/-- A W-2 extraction result used to instantiate the aggregation theorem. -/
def c5DocW2 : ExtractedData :=
  ⟨.W2, 1, [("wages", .num 50000), ("federal_tax_withheld", .num 8000)], "", "w2.pdf"⟩

/-- A 1099-INT extraction result used to instantiate the aggregation
theorem. -/
def c5DocInt : ExtractedData :=
  ⟨.INT_1099, 1, [("interest_income", .num 300)], "", "int.pdf"⟩

/-- A zero-confidence extraction result. -/
def zeroConfDoc : ExtractedData := ⟨.UNKNOWN, 0, [], "", "empty.pdf"⟩

/-- The data dict `parse_w2_data` extracts from `c4Text`: the structural
phase fills wages and withholding, the fallback adds the employer EIN
and the stripped first letter run "form w" as employee name. -/
def c4Dict : List (String × PyValue) :=
  [("wages", .num 50000), ("federal_tax_withheld", .num 8000),
   ("employer_ein", .str "11-1111111"), ("employee_name", .str "form w")]

/-! ## Lemmas about the tax bracket engine -/

theorem tfb_of_le {income : ℚ} {b : TaxBracket} (h : income ≤ b.min_income) :
    calculate_tax_for_bracket income b = 0 := by
  simp [calculate_tax_for_bracket, h]

theorem rate_nonneg_of_OK {b : TaxBracket} (h : bracketOKB b = true) : 0 ≤ b.rate := by
  unfold bracketOKB at h
  cases hm : b.max_income <;> rw [hm] at h <;> simp_all

theorem min_le_max_of_OK {b : TaxBracket} (h : bracketOKB b = true) :
    ∀ mx, b.max_income = some mx → b.min_income ≤ mx := by
  intro mx hm
  unfold bracketOKB at h
  rw [hm] at h
  simp_all

theorem below_elim {a b : TaxBracket} (h : bracketBelowB a b = true) :
    ∃ mx, a.max_income = some mx ∧ mx ≤ b.min_income := by
  unfold bracketBelowB at h
  cases hm : a.max_income <;> rw [hm] at h
  · simp_all
  · exact ⟨_, rfl, by simpa using h⟩

theorem brackets_OK (fs : FilingStatus) :
    ∀ b ∈ get_brackets_for_status fs, bracketOKB b = true := by
  cases fs <;>
    (intro b hb
     simp only [get_brackets_for_status, single_brackets, married_brackets,
       hoh_brackets, List.mem_cons, List.not_mem_nil, or_false] at hb
     rcases hb with rfl | rfl | rfl | rfl | rfl | rfl | rfl <;>
       norm_num [bracketOKB])

theorem brackets_min_sorted (fs : FilingStatus) :
    (get_brackets_for_status fs).Pairwise (fun a b => a.min_income < b.min_income) := by
  cases fs <;> decide

theorem brackets_below_sorted (fs : FilingStatus) :
    (get_brackets_for_status fs).Pairwise (fun a b => bracketBelowB a b = true) := by
  cases fs <;> decide

theorem tfb_nonneg {b : TaxBracket} (hOK : bracketOKB b = true) (x : ℚ) :
    0 ≤ calculate_tax_for_bracket x b := by
  unfold calculate_tax_for_bracket
  by_cases hx : x ≤ b.min_income
  · simp [hx]
  · rw [if_neg hx]
    have hr := rate_nonneg_of_OK hOK
    cases hm : b.max_income with
    | none => exact mul_nonneg (by linarith [not_le.mp hx]) hr
    | some mx =>
        have hmm := min_le_max_of_OK hOK mx hm
        exact mul_nonneg (le_min (by linarith [not_le.mp hx]) (by linarith)) hr

theorem tfb_mono {b : TaxBracket} (hOK : bracketOKB b = true) {x y : ℚ} (hxy : x ≤ y) :
    calculate_tax_for_bracket x b ≤ calculate_tax_for_bracket y b := by
  by_cases hx : x ≤ b.min_income
  · rw [tfb_of_le hx]
    exact tfb_nonneg hOK y
  · have hy : ¬ y ≤ b.min_income := fun h => hx (le_trans hxy h)
    unfold calculate_tax_for_bracket
    rw [if_neg hx, if_neg hy]
    have hr := rate_nonneg_of_OK hOK
    cases hm : b.max_income with
    | none => exact mul_le_mul_of_nonneg_right (by linarith) hr
    | some mx =>
        exact mul_le_mul_of_nonneg_right
          (min_le_min (by linarith) le_rfl) hr

theorem tfb_saturated {b : TaxBracket} (hOK : bracketOKB b = true) {mx z : ℚ}
    (hm : b.max_income = some mx) (hz : mx ≤ z) :
    calculate_tax_for_bracket z b = (mx - b.min_income) * b.rate := by
  by_cases h : z ≤ b.min_income
  · have h1 := min_le_max_of_OK hOK mx hm
    have he : mx = b.min_income := le_antisymm (le_trans hz h) h1
    rw [tfb_of_le h, he]
    ring
  · simp only [calculate_tax_for_bracket, hm, if_neg h]
    rw [min_eq_right (by linarith [not_le.mp h])]

theorem tfb_linear_within {b : TaxBracket} {x δ : ℚ} (hδ : 0 ≤ δ)
    (hx : b.min_income < x) (hmx : ∀ mx, b.max_income = some mx → x + δ ≤ mx) :
    calculate_tax_for_bracket (x + δ) b = calculate_tax_for_bracket x b + δ * b.rate := by
  cases hm : b.max_income with
  | none =>
      simp only [calculate_tax_for_bracket, hm,
        if_neg (not_le.mpr hx), if_neg (show ¬ x + δ ≤ b.min_income by linarith)]
      ring
  | some mx =>
      have h1 := hmx mx hm
      simp only [calculate_tax_for_bracket, hm,
        if_neg (not_le.mpr hx), if_neg (show ¬ x + δ ≤ b.min_income by linarith)]
      rw [min_eq_left (by linarith), min_eq_left (by linarith)]
      ring

theorem foldl_if_tax (ti : ℚ) (l : List TaxBracket) (acc : ℚ) :
    l.foldl
      (fun total_tax b =>
        if b.min_income < ti then total_tax + calculate_tax_for_bracket ti b
        else total_tax)
      acc
    = acc + (l.map (calculate_tax_for_bracket ti)).sum := by
  induction l generalizing acc with
  | nil => simp
  | cons b rest ih =>
      simp only [List.foldl_cons, List.map_cons, List.sum_cons]
      by_cases h : b.min_income < ti
      · rw [if_pos h, ih]
        ring
      · rw [if_neg h, ih, tfb_of_le (not_lt.mp h)]
        ring

theorem marginal_eq_sum (ti : ℚ) (fs : FilingStatus) :
    calculate_marginal_tax ti fs
      = ((get_brackets_for_status fs).map (calculate_tax_for_bracket ti)).sum := by
  unfold calculate_marginal_tax
  rw [foldl_if_tax]
  ring

theorem sum_tfb_add {x δ : ℚ} (hδ : 0 ≤ δ) :
    ∀ (l : List TaxBracket), (∀ b' ∈ l, bracketOKB b' = true) →
      l.Pairwise (fun a b => bracketBelowB a b = true) →
      ∀ b ∈ l, b.min_income < x →
        (∀ mx, b.max_income = some mx → x + δ ≤ mx) →
        (l.map (calculate_tax_for_bracket (x + δ))).sum
          = (l.map (calculate_tax_for_bracket x)).sum + δ * b.rate := by
  intro l
  induction l with
  | nil => intro _ _ b hb; exact absurd hb (List.not_mem_nil b)
  | cons a rest ih =>
      intro hOK hs b hb hbx hbmx
      rw [List.pairwise_cons] at hs
      rcases List.mem_cons.mp hb with rfl | hbr
      · -- the active bracket is the head; all later brackets stay at tax 0
        have htail : rest.map (calculate_tax_for_bracket (x + δ))
            = rest.map (calculate_tax_for_bracket x) := by
          apply List.map_congr_left
          intro b' hb'
          obtain ⟨mx, hm, hle⟩ := below_elim (hs.1 b' hb')
          have h1 : x + δ ≤ b'.min_income := le_trans (hbmx mx hm) hle
          rw [tfb_of_le h1, tfb_of_le (by linarith)]
        simp only [List.map_cons, List.sum_cons, htail,
          tfb_linear_within hδ hbx hbmx]
        ring
      · -- the active bracket is in the tail; the head is saturated
        obtain ⟨mxa, hma, hlea⟩ := below_elim (hs.1 b hbr)
        have hOKa : bracketOKB a = true := hOK a (List.mem_cons_self a rest)
        have hsat1 := tfb_saturated hOKa hma (z := x) (by linarith)
        have hsat2 := tfb_saturated hOKa hma (z := x + δ) (by linarith)
        have ihr := ih (fun b' hb' => hOK b' (List.mem_cons_of_mem a hb'))
          hs.2 b hbr hbx hbmx
        simp only [List.map_cons, List.sum_cons, hsat1, hsat2, ihr]
        ring

/-- C1: for every taxableIncome ≥ 0 and filing status,
`calculate_marginal_tax` is monotonically non-decreasing in
taxableIncome; and within any one bracket (minIncome < income and
income + Δ within the bracket maximum, Δ ≥ 0), raising income by Δ
raises the total tax by exactly Δ × the rate of that bracket and leaves the
per-bracket tax of every lower bracket unchanged. -/
theorem C1_marginal_tax_monotone_piecewise_linear :
    (∀ (fs : FilingStatus) (x y : ℚ), 0 ≤ x → x ≤ y →
      calculate_marginal_tax x fs ≤ calculate_marginal_tax y fs)
  ∧ (∀ (fs : FilingStatus) (b : TaxBracket) (x δ : ℚ),
      b ∈ get_brackets_for_status fs → 0 ≤ x → 0 ≤ δ → b.min_income < x →
      (∀ mx, b.max_income = some mx → x + δ ≤ mx) →
      calculate_marginal_tax (x + δ) fs = calculate_marginal_tax x fs + δ * b.rate
      ∧ ∀ b' ∈ get_brackets_for_status fs, bracketBelowB b' b = true →
          calculate_tax_for_bracket (x + δ) b' = calculate_tax_for_bracket x b') := by
  constructor
  · intro fs x y _ hxy
    rw [marginal_eq_sum, marginal_eq_sum]
    exact List.sum_le_sum fun b hb => tfb_mono (brackets_OK fs b hb) hxy
  · intro fs b x δ hb _ hδ hbx hbmx
    constructor
    · rw [marginal_eq_sum, marginal_eq_sum]
      exact sum_tfb_add hδ _ (brackets_OK fs) (brackets_below_sorted fs) b hb hbx hbmx
    · intro b' hb' hbelow
      obtain ⟨mx', hm', hle'⟩ := below_elim hbelow
      have hOK' := brackets_OK fs b' hb'
      rw [tfb_saturated hOK' hm' (by linarith),
        tfb_saturated hOK' hm' (by linarith)]

/-- Witness for C1 at concrete inputs: monotonicity from 20000 to 30000
and exact 12 percent slope for a 5000 raise inside the second Single
bracket. -/
theorem C1_marginal_tax_monotone_piecewise_linear_witness :
    calculate_marginal_tax 20000 .SINGLE ≤ calculate_marginal_tax 30000 .SINGLE
    ∧ calculate_marginal_tax (20000 + 5000) .SINGLE
        = calculate_marginal_tax 20000 .SINGLE + 5000 * (12/100 : ℚ) := by
  refine ⟨C1_marginal_tax_monotone_piecewise_linear.1 .SINGLE 20000 30000 (by norm_num) (by norm_num), ?_⟩
  have h := (C1_marginal_tax_monotone_piecewise_linear.2 .SINGLE
    ⟨12/100, 11600, some 47150⟩ 20000 5000
    (List.mem_cons_of_mem _ (List.mem_cons_self _ _)) (by norm_num) (by norm_num)
    (by norm_num) (fun mx hmx => by
      simp only [Option.some.injEq] at hmx
      rw [← hmx]
      norm_num)).1
  simpa using h

/-! ## Lemmas about the bracket breakdown -/

theorem foldl_if_breakdown (ti : ℚ) (l : List TaxBracket) (acc : List BracketEntry) :
    l.foldl
      (fun breakdown b =>
        if b.min_income < ti then breakdown ++ [mkBracketEntry ti b]
        else breakdown)
      acc
    = acc ++ (l.filter (fun b => decide (b.min_income < ti))).map (mkBracketEntry ti) := by
  induction l generalizing acc with
  | nil => simp
  | cons b rest ih =>
      simp only [List.foldl_cons, List.filter_cons]
      by_cases h : b.min_income < ti
      · rw [if_pos h, ih]
        simp [h]
      · rw [if_neg h, ih]
        simp [h]

theorem breakdown_eq_filter_map (ti : ℚ) (fs : FilingStatus) :
    get_bracket_breakdown ti fs
      = ((get_brackets_for_status fs).filter (fun b => decide (b.min_income < ti))).map
          (mkBracketEntry ti) := by
  unfold get_bracket_breakdown
  rw [foldl_if_breakdown]
  simp

theorem sum_map_filter_tfb (ti : ℚ) (l : List TaxBracket) :
    ((l.filter (fun b => decide (b.min_income < ti))).map (calculate_tax_for_bracket ti)).sum
      = (l.map (calculate_tax_for_bracket ti)).sum := by
  induction l with
  | nil => rfl
  | cons b rest ih =>
      simp only [List.filter_cons]
      by_cases h : b.min_income < ti
      · simp [h, ih]
      · simp [h, ih, tfb_of_le (not_lt.mp h)]

/-- C2: for every taxableIncome ≥ 0 and filing status, the per-bracket
taxes of `get_bracket_breakdown` sum exactly to
`calculate_marginal_tax`, and the breakdown lists exactly the brackets
with taxableIncome > minIncome, in ascending bracket order. -/
theorem C2_breakdown_sum_and_contents (fs : FilingStatus) (ti : ℚ) (h0 : 0 ≤ ti) :
    ((get_bracket_breakdown ti fs).map BracketEntry.tax_for_bracket).sum
        = calculate_marginal_tax ti fs
  ∧ (get_bracket_breakdown ti fs).map
        (fun e => (e.rate, e.min_income, e.max_income))
      = ((get_brackets_for_status fs).filter (fun b => decide (b.min_income < ti))).map
          (fun b => (b.rate, b.min_income, b.max_income))
  ∧ (get_bracket_breakdown ti fs).Pairwise
      (fun e₁ e₂ => e₁.min_income < e₂.min_income) := by
  refine ⟨?_, ?_, ?_⟩
  · rw [breakdown_eq_filter_map, List.map_map]
    rw [marginal_eq_sum]
    exact sum_map_filter_tfb ti _
  · rw [breakdown_eq_filter_map, List.map_map]
    rfl
  · rw [breakdown_eq_filter_map]
    rw [List.pairwise_map]
    exact ((brackets_min_sorted fs).sublist (List.filter_sublist _))

/-- Witness for C2 at taxable income 50000, Single. -/
theorem C2_breakdown_sum_and_contents_witness :
    ((get_bracket_breakdown 50000 .SINGLE).map BracketEntry.tax_for_bracket).sum
      = calculate_marginal_tax 50000 .SINGLE :=
  (C2_breakdown_sum_and_contents .SINGLE 50000 (by norm_num)).1

/-- C3: the end-to-end Single-filer scenario: wages 50000, withholding
8000, no other income, age 30 yields standard deduction 14600, taxable
income 35400, tax liability 4016 and a refund of 3984. -/
theorem C3_single_filer_scenario :
    (calculate_tax "single" 50000 0 0 8000 0 30).map
        (fun r => (r.standard_deduction, r.taxable_income, r.tax_liability,
          r.refund_or_amount_owed))
      = some (14600, 35400, 4016, 3984) := by
  have hfs : filingStatusFromString "single" = some .SINGLE := by decide
  have hsd : calculate_standard_deduction .SINGLE 30 = 14600 := by
    norm_num [calculate_standard_deduction, standard_deductions]
  have htax : calculate_marginal_tax 35400 .SINGLE = 4016 := by
    rw [marginal_eq_sum]
    norm_num [get_brackets_for_status, single_brackets, calculate_tax_for_bracket,
      min_def]
  simp only [calculate_tax, hfs, Option.bind_eq_bind, Option.some_bind, hsd,
    Option.map_some']
  norm_num [htax, max_def]

/-- C9: for every filing status, age 65 or older adds the fixed
per-status addon to the standard deduction and a younger age leaves the
base deduction unchanged. -/
theorem C9_standard_deduction_age_addon (fs : FilingStatus) (age : Int) :
    (65 ≤ age →
      calculate_standard_deduction fs age = standard_deductions fs + age65Addon fs)
    ∧ (age < 65 → calculate_standard_deduction fs age = standard_deductions fs) := by
  constructor
  · intro h
    unfold calculate_standard_deduction
    rw [if_pos h]
    cases fs <;> rfl
  · intro h
    unfold calculate_standard_deduction
    rw [if_neg (not_le.mpr h)]

/-- Witness for C9: a 70-year-old Single filer gets the addon, a
30-year-old Married filer does not. -/
theorem C9_standard_deduction_age_addon_witness :
    calculate_standard_deduction .SINGLE 70 = standard_deductions .SINGLE + age65Addon .SINGLE
    ∧ calculate_standard_deduction .MARRIED 30 = standard_deductions .MARRIED :=
  ⟨(C9_standard_deduction_age_addon .SINGLE 70).1 (by norm_num),
    (C9_standard_deduction_age_addon .MARRIED 30).2 (by norm_num)⟩

/-! ## Lemmas about classification and parsing confidence -/

theorem score_nonneg (inds : List String) (text : String) :
    0 ≤ indicatorScore inds text := by
  unfold indicatorScore
  positivity

theorem detect_conf_nonneg (text : String) :
    0 ≤ (detect_document_type text).2 := by
  unfold detect_document_type pickBest
  split_ifs <;> dsimp only <;> exact score_nonneg _ _

theorem parse_w2_conf_nonneg {text : String} {p : List (String × PyValue) × ℚ}
    (h : parse_w2_data text = some p) : 0 ≤ p.2 := by
  unfold parse_w2_data at h
  rw [Option.map_eq_some'] at h
  obtain ⟨st, _, hst⟩ := h
  have h2 := congrArg Prod.snd hst
  dsimp only at h2
  rw [← h2]
  positivity

theorem int_conf_nonneg (text : String) : 0 ≤ (parse_1099_int_data text).2 := by
  unfold parse_1099_int_data
  dsimp only
  positivity

theorem nec_conf_nonneg (text : String) : 0 ≤ (parse_1099_nec_data text).2 := by
  unfold parse_1099_nec_data
  dsimp only
  positivity

/-- C4 fails on the code as stated; this is the amended lower half of the
claimed invariant: every `ExtractionResult` produced by
`process_document` has confidence_score ≥ 0 (the upper bound 1 fails
when a structural line pattern occurs on several lines). -/
theorem C4_confidence_nonneg (text filename : String) (r : ExtractedData)
    (h : process_document text filename = some r) : 0 ≤ r.confidence_score := by
  unfold process_document at h
  by_cases ht : text = ""
  · rw [if_pos ht] at h
    have hr := Option.some.inj h
    rw [← hr]
  · rw [if_neg ht] at h
    have hd := detect_conf_nonneg text
    cases hdt : (detect_document_type text).1 <;> rw [hdt] at h
    · rw [Option.map_eq_some'] at h
      obtain ⟨p, hp, hr⟩ := h
      have hq := parse_w2_conf_nonneg hp
      rw [← hr]
      dsimp only
      positivity
    · rw [Option.map_some'] at h
      have hr := Option.some.inj h
      have hq := int_conf_nonneg text
      rw [← hr]
      dsimp only
      positivity
    · rw [Option.map_some'] at h
      have hr := Option.some.inj h
      have hq := nec_conf_nonneg text
      rw [← hr]
      dsimp only
      positivity
    · rw [Option.map_some'] at h
      have hr := Option.some.inj h
      rw [← hr]
      dsimp only
      positivity

/-- Witness for the amended C4 at the empty input text. -/
theorem C4_confidence_nonneg_witness :
    process_document "" "empty.pdf" = some zeroConfDoc
    ∧ 0 ≤ zeroConfDoc.confidence_score :=
  ⟨rfl, C4_confidence_nonneg "" "empty.pdf" zeroConfDoc rfl⟩

/-- Counterexample to C4 as stated: on `c4Text` (whose structural W-2
line occurs six times) `process_document` returns confidence 27/26,
which exceeds 1. -/
theorem C4_confidence_above_one_counterexample :
    (process_document c4Text "doc.pdf").map ExtractedData.confidence_score
        = some (27/26 : ℚ)
    ∧ ¬ ((27/26 : ℚ) ≤ 1) := by
  constructor
  · have hcW : w2_indicators.countP (fun i => containsSub (pyUpper c4Text) i) = 3 := by
      decide
    have hcI : int_indicators.countP (fun i => containsSub (pyUpper c4Text) i) = 0 := by
      decide
    have hcN : nec_indicators.countP (fun i => containsSub (pyUpper c4Text) i) = 0 := by
      decide
    have hw : w2_score c4Text = 1 := by
      unfold w2_score indicatorScore
      rw [hcW]
      norm_num [w2_indicators]
    have hi : int_score c4Text = 0 := by
      unfold int_score indicatorScore
      rw [hcI]
      norm_num
    have hn : nec_score c4Text = 0 := by
      unfold nec_score indicatorScore
      rw [hcN]
      norm_num
    have hdet : detect_document_type c4Text = (DocumentType.W2, 1) := by
      unfold detect_document_type
      rw [hw, hi, hn]
      norm_num [pickBest]
    have hraw : parse_w2_raw c4Text = some (c4Dict, 14) := by decide
    have hpd : parse_w2_data c4Text = some (c4Dict, (14 : ℚ)/13) := by
      unfold parse_w2_data
      rw [hraw, Option.map_some']
      norm_num [w2ExpectedFields]
    have hne : ¬ (c4Text = "") := by decide
    unfold process_document
    rw [if_neg hne, hdet]
    dsimp only
    rw [hpd, Option.map_some', Option.map_some']
    dsimp only
    norm_num
  · norm_num

/-! ## Aggregation lemmas -/

theorem aggStep_eq (inc : IncomeData) (e : ExtractedData) :
    aggStep inc e =
      ⟨inc.wages + wagesContribution e,
        inc.interest_income + interestContribution e,
        inc.nonemployee_compensation + necContribution e,
        inc.federal_income_tax_withheld + withheldContribution e⟩ := by
  obtain ⟨w, i, n, f⟩ := inc
  cases he : e.document_type <;>
    simp [aggStep, wagesContribution, interestContribution, necContribution,
      withheldContribution, he]

theorem foldl_aggStep (docs : List ExtractedData) (init : IncomeData) :
    docs.foldl aggStep init =
      ⟨init.wages + (docs.map wagesContribution).sum,
        init.interest_income + (docs.map interestContribution).sum,
        init.nonemployee_compensation + (docs.map necContribution).sum,
        init.federal_income_tax_withheld + (docs.map withheldContribution).sum⟩ := by
  induction docs generalizing init with
  | nil => simp
  | cons d rest ih =>
      rw [List.foldl_cons, ih, aggStep_eq]
      simp only [List.map_cons, List.sum_cons, IncomeData.mk.injEq]
      refine ⟨by ring, by ring, by ring, by ring⟩

/-- C5: the batch income aggregation of the calculate route yields the
same `IncomeData` for every permutation of the input documents,
including the reversed batch. -/
theorem C5_aggregation_order_independent :
    (∀ docs docs' : List ExtractedData, docs.Perm docs' →
      aggregate docs = aggregate docs')
  ∧ ∀ docs : List ExtractedData, aggregate docs.reverse = aggregate docs := by
  have key : ∀ docs docs' : List ExtractedData, docs.Perm docs' →
      aggregate docs = aggregate docs' := by
    intro docs docs' hp
    unfold aggregate
    rw [foldl_aggStep, foldl_aggStep]
    simp only [IncomeData.mk.injEq]
    exact ⟨by rw [(hp.map wagesContribution).sum_eq],
      by rw [(hp.map interestContribution).sum_eq],
      by rw [(hp.map necContribution).sum_eq],
      by rw [(hp.map withheldContribution).sum_eq]⟩
  exact ⟨key, fun docs => key _ _ (List.reverse_perm docs)⟩

/-- Witness for C5 on a two-document batch and its reversal. -/
theorem C5_aggregation_order_independent_witness :
    aggregate [c5DocW2, c5DocInt] = aggregate [c5DocInt, c5DocW2] :=
  C5_aggregation_order_independent.1 _ _ (List.Perm.swap _ _ _)

/-- C6: classifying the empty string yields the first-priority type W2
with confidence 0, and `validate_extracted_data` marks every extraction
result with confidence 0 as invalid. -/
theorem C6_empty_text_and_zero_confidence :
    detect_document_type "" = (DocumentType.W2, 0)
  ∧ ∀ e : ExtractedData, e.confidence_score = 0 →
      (validate_extracted_data e).is_valid = false := by
  constructor
  · have hW : w2_indicators.countP (fun i => containsSub (pyUpper "") i) = 0 := by
      decide
    have hI : int_indicators.countP (fun i => containsSub (pyUpper "") i) = 0 := by
      decide
    have hN : nec_indicators.countP (fun i => containsSub (pyUpper "") i) = 0 := by
      decide
    have hw : w2_score "" = 0 := by
      unfold w2_score indicatorScore
      rw [hW]
      norm_num
    have hi : int_score "" = 0 := by
      unfold int_score indicatorScore
      rw [hI]
      norm_num
    have hn : nec_score "" = 0 := by
      unfold nec_score indicatorScore
      rw [hN]
      norm_num
    unfold detect_document_type
    rw [hw, hi, hn]
    norm_num [pickBest]
  · intro e h
    have h05 : e.confidence_score < (1/2 : ℚ) := by
      rw [h]
      norm_num
    simp [validate_extracted_data, h05]
    intro _ habs
    exfalso
    linarith

/-- Witness for the validation half of C6 at a concrete
zero-confidence result. -/
theorem C6_empty_text_and_zero_confidence_witness :
    (validate_extracted_data zeroConfDoc).is_valid = false :=
  C6_empty_text_and_zero_confidence.2 zeroConfDoc rfl

/-! ## The classifier maximum and its tie-break -/

theorem pickBest_spec (a b c : ℚ) :
    (pickBest a b c).2 = max (max a b) c
  ∧ ((pickBest a b c).1 = .W2 ↔ b ≤ a ∧ c ≤ a)
  ∧ ((pickBest a b c).1 = .INT_1099 ↔ a < b ∧ c ≤ b)
  ∧ ((pickBest a b c).1 = .NEC_1099 ↔ max a b < c) := by
  unfold pickBest
  split_ifs with h1 h2 h3
  · refine ⟨?_, ?_, ?_, ?_⟩
    · show c = max (max a b) c
      rw [max_eq_right h1.le, max_eq_right h2.le]
    · constructor
      · intro hx
        exact absurd hx (by decide)
      · rintro ⟨hba, _⟩
        exact absurd h1 (not_lt.mpr hba)
    · constructor
      · intro hx
        exact absurd hx (by decide)
      · rintro ⟨_, hcb⟩
        exact absurd h2 (not_lt.mpr hcb)
    · constructor
      · intro _
        rw [max_eq_right h1.le]
        exact h2
      · intro _
        rfl
  · refine ⟨?_, ?_, ?_, ?_⟩
    · show b = max (max a b) c
      rw [max_eq_right h1.le, max_eq_left (not_lt.mp h2)]
    · constructor
      · intro hx
        exact absurd hx (by decide)
      · rintro ⟨hba, _⟩
        exact absurd h1 (not_lt.mpr hba)
    · constructor
      · intro _
        exact ⟨h1, not_lt.mp h2⟩
      · intro _
        rfl
    · constructor
      · intro hx
        exact absurd hx (by decide)
      · intro hm
        rw [max_eq_right h1.le] at hm
        exact absurd hm h2
  · refine ⟨?_, ?_, ?_, ?_⟩
    · show c = max (max a b) c
      rw [max_eq_left (not_lt.mp h1), max_eq_right h3.le]
    · constructor
      · intro hx
        exact absurd hx (by decide)
      · rintro ⟨_, hca⟩
        exact absurd h3 (not_lt.mpr hca)
    · constructor
      · intro hx
        exact absurd hx (by decide)
      · rintro ⟨hab, _⟩
        exact absurd hab h1
    · constructor
      · intro _
        rw [max_eq_left (not_lt.mp h1)]
        exact h3
      · intro _
        rfl
  · refine ⟨?_, ?_, ?_, ?_⟩
    · show a = max (max a b) c
      rw [max_eq_left (not_lt.mp h1), max_eq_left (not_lt.mp h3)]
    · constructor
      · intro _
        exact ⟨not_lt.mp h1, not_lt.mp h3⟩
      · intro _
        rfl
    · constructor
      · intro hx
        exact absurd hx (by decide)
      · rintro ⟨hab, _⟩
        exact absurd hab h1
    · constructor
      · intro hx
        exact absurd hx (by decide)
      · intro hm
        rw [max_eq_left (not_lt.mp h1)] at hm
        exact absurd hm h3

/-- C7: `detect_document_type` returns the maximal indicator score, and
the winning type is characterized by the fixed priority order W2 before
1099-INT before 1099-NEC on score ties. -/
theorem C7_detect_max_score_and_priority (text : String) :
    (detect_document_type text).2
      = max (max (w2_score text) (int_score text)) (nec_score text)
  ∧ ((detect_document_type text).1 = .W2 ↔
      int_score text ≤ w2_score text ∧ nec_score text ≤ w2_score text)
  ∧ ((detect_document_type text).1 = .INT_1099 ↔
      w2_score text < int_score text ∧ nec_score text ≤ int_score text)
  ∧ ((detect_document_type text).1 = .NEC_1099 ↔
      max (w2_score text) (int_score text) < nec_score text) :=
  pickBest_spec (w2_score text) (int_score text) (nec_score text)

/-- C8: `validate_extracted_data` returns valid exactly when the
extracted field dict is non-empty, the confidence is at least 0.5 and
the document type is known; warnings and suggestions never block
validity. -/
theorem C8_validity_iff (e : ExtractedData) :
    (validate_extracted_data e).is_valid = true ↔
      e.data ≠ [] ∧ (1/2 : ℚ) ≤ e.confidence_score
        ∧ e.document_type ≠ DocumentType.UNKNOWN := by
  by_cases hc : e.confidence_score < (1/2 : ℚ)
  · have hval : (validate_extracted_data e).is_valid = false := by
      simp [validate_extracted_data, hc]
      intro _ habs
      exfalso
      linarith
    rw [hval]
    simp only [Bool.false_eq_true, false_iff]
    rintro ⟨_, habs, _⟩
    exact (not_le.mpr hc) habs
  · by_cases hu : e.document_type = DocumentType.UNKNOWN
    · have hval : (validate_extracted_data e).is_valid = false := by
        simp [validate_extracted_data, hc, hu]
      rw [hval]
      simp only [Bool.false_eq_true, false_iff]
      rintro ⟨_, _, habs⟩
      exact habs hu
    · have hle := not_lt.mp hc
      simp [validate_extracted_data, hc, hu, hle, List.isEmpty_iff]

/-! ## Lemmas about `validate_inputs` -/

theorem negStep_acc (acc : List String) (p : String × PyValue) :
    negStep acc p = acc ++ negStep [] p := by
  unfold negStep
  rcases p with ⟨k, v⟩
  cases v with
  | num q =>
      by_cases hq : q < 0
      · simp [hq]
      · simp [hq]
  | str s => simp

theorem negStep_foldl_append (l : List (String × PyValue)) (acc : List String) :
    l.foldl negStep acc = acc ++ l.foldl negStep [] := by
  induction l generalizing acc with
  | nil => simp
  | cons p rest ih =>
      rw [List.foldl_cons, List.foldl_cons, ih, ih (negStep [] p),
        negStep_acc acc p, List.append_assoc]

theorem negativeValueErrors_ne_nil (l : List (String × PyValue)) :
    ∀ (k : String) (q : ℚ), (k, PyValue.num q) ∈ l → q < 0 →
      negativeValueErrors l ≠ [] := by
  unfold negativeValueErrors
  induction l with
  | nil =>
      intro k q hm _
      cases hm
  | cons p rest ih =>
      intro k q hm hq
      rw [List.foldl_cons, negStep_foldl_append]
      rcases List.mem_cons.mp hm with heq | hmem
      · rw [← heq]
        simp [negStep, hq]
      · intro hcontra
        rcases List.append_eq_nil.mp hcontra with ⟨_, h2⟩
        exact (ih k q hmem hq) h2

/-- C10: `calculate_tax` performs no numeric input validation: with any
(possibly negative) amounts it succeeds whenever the filing-status
string parses, folding the amounts into total income; it fails exactly
when the status string is invalid; and a negative numeric kwarg makes
the separate `validate_inputs` report invalid. -/
theorem C10_calculate_tax_skips_validation :
    (∀ (s : String) (w i n f : ℚ) (d a : Int) (fs : FilingStatus),
        filingStatusFromString s = some fs →
        (calculate_tax s w i n f d a).map TaxCalculationResult.total_income
          = some (w + i + n))
  ∧ (∀ (s : String) (w i n f : ℚ) (d a : Int),
        filingStatusFromString s = none → calculate_tax s w i n f d a = none)
  ∧ (∀ (kwargs : List (String × PyValue)) (k : String) (q : ℚ)
        (v : InputValidation),
        (k, PyValue.num q) ∈ kwargs → q < 0 →
        validate_inputs kwargs = some v → v.is_valid = false) := by
  refine ⟨?_, ?_, ?_⟩
  · intro s w i n f d a fs hfs
    simp [calculate_tax, hfs]
  · intro s w i n f d a hfs
    simp [calculate_tax, hfs]
  · intro kwargs k q v hm hq hv
    have hne := negativeValueErrors_ne_nil kwargs k q hm hq
    unfold validate_inputs at hv
    rw [Option.bind_eq_some] at hv
    obtain ⟨deps, _, hv⟩ := hv
    rw [Option.bind_eq_some] at hv
    obtain ⟨warns, _, hv⟩ := hv
    have hvv := Option.some.inj hv
    rw [← hvv]
    cases hlist : negativeValueErrors kwargs ++ filingStatusErrors kwargs ++ deps with
    | nil =>
        rcases List.append_eq_nil.mp hlist with ⟨h1, _⟩
        rcases List.append_eq_nil.mp h1 with ⟨h2, _⟩
        exact absurd h2 hne
    | cons x xs =>
        simp only [hlist]
        rfl

/-- Witness for C10: negative wages flow through `calculate_tax`
unchanged, an invalid status string fails, and `validate_inputs` flags a
negative wages kwarg. -/
theorem C10_calculate_tax_skips_validation_witness :
    (calculate_tax "single" (-5000) 0 0 0 0 30).map TaxCalculationResult.total_income
        = some (-5000 + 0 + 0)
    ∧ calculate_tax "unknown_status" 0 0 0 0 0 0 = none
    ∧ (⟨false, ["wages cannot be negative"], []⟩ : InputValidation).is_valid = false :=
  ⟨C10_calculate_tax_skips_validation.1 "single" (-5000) 0 0 0 0 30 .SINGLE (by decide),
    C10_calculate_tax_skips_validation.2.1 "unknown_status" 0 0 0 0 0 0 (by decide),
    C10_calculate_tax_skips_validation.2.2 [("wages", .num (-5000))] "wages" (-5000)
      ⟨false, ["wages cannot be negative"], []⟩ (by simp) (by norm_num) (by decide)⟩

end TaxAgent
